import Mathlib

/-!
Verification development for the voice-assistant front end
(src/src/App.tsx, src/src/pages/HomePage.tsx, src/src/hooks/useClientTools.ts,
src/src/hooks/useFormSubmission.ts, src/src/hooks/useWebhook.ts,
src/src/components/UserInfoForm.tsx).

The definitions below are shallow embeddings of the TypeScript source:
pure functions become Lean functions, the event/callback-driven pieces
become explicit step functions on small state types, JavaScript promise
settlement becomes a first-write-wins option, and thrown exceptions become
`Except`.  Doc comments cite the source symbol each definition embeds.
-/

/-- `CONNECTION_TIMEOUT` constant from src/src/App.tsx and
src/src/pages/HomePage.tsx (milliseconds of the bounded wait that races
the SDK session-start promise). -/
def CONNECTION_TIMEOUT : Nat := 8000

/-- `RETRY_ATTEMPTS` constant from src/src/App.tsx and
src/src/pages/HomePage.tsx (bound compared against `connectionAttempts`). -/
def RETRY_ATTEMPTS : Nat := 3

/-- The fixed backoff passed to `setTimeout(() => handleStartSession(), 1000)`
in src/src/App.tsx and `setTimeout(() => startSession(), 1000)` in
src/src/pages/HomePage.tsx. -/
def RETRY_BACKOFF_MS : Nat := 1000

/-- `TOOL_CAPTURE_TIMEOUT` constant from src/src/App.tsx (milliseconds until
a pending capture modal resolves with a timeout result). -/
def TOOL_CAPTURE_TIMEOUT : Nat := 15000

/-!
## Session-start retry logic (claim C1)

src/src/App.tsx, `handleStartSession` (and identically
src/src/pages/HomePage.tsx, `startSession`) contains

  catch (error) \{
    if (connectionAttempts < RETRY_ATTEMPTS) \{
      setConnectionAttempts(prev => prev + 1);
      setTimeout(() => handleStartSession(), 1000);
    \}
  \}

`handleStartSession` is produced by `useCallback` with `connectionAttempts`
among its dependencies, so inside one such closure `connectionAttempts` is a
per-render constant: the value the React state had when that closure was
created.  The scheduled retry `() => handleStartSession()` re-invokes the
very closure that scheduled it (the `const` binding of its own render
scope), hence every retry in an automatic retry chain runs with the same
captured counter value.  Only `setConnectionAttempts(prev => prev + 1)`
acts on the live React state, because it uses the functional-update form.
The embedding therefore distinguishes the closure-captured counter
(`captured`) from the live state (`live`).
-/

/-- One execution of the catch block of `handleStartSession`
(src/src/App.tsx) for a failed or timed-out session start.  `captured` is
the closure's `connectionAttempts`, `live` the current React state.
Returns the new live state and, when a retry was scheduled, the counter
value the scheduled closure will observe (the same `captured`). -/
def handleStartFailure (captured live : Nat) : Nat × Option Nat :=
  if captured < RETRY_ATTEMPTS then (live + 1, some captured) else (live, none)

/-- `n` consecutive failed session-start attempts, beginning from a closure
whose captured counter is `captured` while the live counter is `live`.
Each attempt runs the catch block; if a retry is scheduled the chain
continues with the captured value carried by the scheduled closure,
otherwise it stops.  Returns the final live counter and the number of
retries that were scheduled. -/
def runFailures (captured live : Nat) : Nat → Nat × Nat
  | 0 => (live, 0)
  | Nat.succ n =>
    match handleStartFailure captured live with
    | (live2, some cap2) =>
      let r := runFailures cap2 live2 n
      (r.1, r.2 + 1)
    | (live2, none) => (live2, 0)

/-!
## The in-call tool-capture bridge (claims C2 and C8)

src/src/App.tsx registers the client tools `get_firstandlastname` and
`get_email`.  Each returns a `new Promise((resolve) => ...)` that stores
`resolve` in React state (`nameCaptureResolver` / `emailCaptureResolver`),
opens the capture modal, arms a 15000 ms timeout, and stashes a cleanup
closure (clearTimeout + resolver := null + modal := false) on `window`.
The four ways the promise can be resolved are the submit handler
(`handleNameSubmit` / `handleEmailSubmit`), the close handler
(`handleNameClose` / `handleEmailClose`), the timeout callback, and
`onDisconnect`.  The two tools are structurally identical, so the state
machine below is generic in the submitted payload type `α`.

The submit and close handlers are memoized with the matching resolver in
their dependency array, so they always read the current resolver.
`onDisconnect`, however, is memoized with dependency array
`[emailCaptureResolver]` ONLY, while its body also reads
`nameCaptureResolver`: the executing `onDisconnect` closure sees the
resolver values captured at the last render where `emailCaptureResolver`
changed (the mount render, if it never changed).  In the agent's
step-1 name capture — a name request pending while the email resolver
was never touched — the executing closure captured
`nameCaptureResolver = null`, so a disconnect resolves nothing for the
name request.  The `disconnect` event therefore carries the
closure-captured resolver flag explicitly, separate from the live
state. -/

/-- The value with which a capture promise was settled: the four
resolution paths of the bridge in src/src/App.tsx. -/
inductive CaptureOutcome (α : Type) where
  | submitted (payload : α)
  | cancelled
  | timedOut
  | connectionLost
deriving DecidableEq

/-- Events that can reach a capture request after it was opened:
user submission, user cancellation (modal close), the armed 15 s timer
firing, and the SDK `onDisconnect` callback.  `capturedResolver` is the
resolver value the executing memoized `onDisconnect` closure captured
for this request's kind (its dependency array is `[emailCaptureResolver]`
only): `true` when the closure was created at a render that already saw
this request's resolver, `false` when it captured the earlier `null` —
in particular `false` for a name capture pending while the email
resolver never changed since mount. -/
inductive CaptureEvent (α : Type) where
  | submit (payload : α)
  | cancel
  | timeoutFire
  | disconnect (capturedResolver : Bool)
deriving DecidableEq

/-- State of one capture request in src/src/App.tsx:
`resolver` — the stored resolver callback is non-null;
`modalOpen` — `showNameModal` / `showEmailModal`;
`timerActive` — the 15 s timeout is armed and not yet cleared;
`settled` — JavaScript promise settlement (at most one value, ever). -/
structure CaptureState (α : Type) where
  resolver : Bool
  modalOpen : Bool
  timerActive : Bool
  settled : Option (CaptureOutcome α)
deriving DecidableEq

/-- JavaScript promise semantics: calling `resolve` on an already settled
promise is a no-op, so the first settlement wins. -/
def resolveFirst {α : Type} (s : Option (CaptureOutcome α)) (o : CaptureOutcome α) :
    Option (CaptureOutcome α) :=
  match s with
  | some x => some x
  | none => some o

/-- State right after `get_firstandlastname` / `get_email`
(src/src/App.tsx) opened a capture request: resolver stored, modal shown,
15 s timer armed, promise pending. -/
def initCapture (α : Type) : CaptureState α :=
  ⟨true, true, true, none⟩

/-- One event hitting a capture request, exactly as the handlers in
src/src/App.tsx treat it:
`submit` (`handleNameSubmit`/`handleEmailSubmit`): only if a resolver is
stored, resolve with success and run the cleanup (clear timer); the modal
is closed in both cases.
`cancel` (`handleNameClose`/`handleEmailClose`): same guard, resolve with
the cancellation result, cleanup; modal closed in both cases.
`timeoutFire` (the `setTimeout` callback): fires only while the timer is
armed; nulls the resolver, closes the modal, resolves with the timeout
result.
`disconnect` (`onDisconnect`): the guard `if (nameCaptureResolver)`
(resp. email) reads the CLOSURE-CAPTURED resolver, not the live one;
when the captured value is non-null it resolves with the connection-lost
result, nulls the live resolver and closes the modal — the timer is NOT
cleared (`onDisconnect` never calls the cleanup closure); when the
captured value is null the body does nothing for this request. -/
def stepCapture {α : Type} (s : CaptureState α) : CaptureEvent α → CaptureState α
  | .submit p =>
    if s.resolver then
      ⟨false, false, false, resolveFirst s.settled (.submitted p)⟩
    else
      { s with modalOpen := false }
  | .cancel =>
    if s.resolver then
      ⟨false, false, false, resolveFirst s.settled .cancelled⟩
    else
      { s with modalOpen := false }
  | .timeoutFire =>
    if s.timerActive then
      ⟨false, false, false, resolveFirst s.settled .timedOut⟩
    else s
  | .disconnect capturedResolver =>
    if capturedResolver then
      ⟨false, false, s.timerActive, resolveFirst s.settled .connectionLost⟩
    else s

/-- Run a capture request through a sequence of events. -/
def runCapture {α : Type} (s : CaptureState α) (es : List (CaptureEvent α)) :
    CaptureState α :=
  es.foldl stepCapture s

/-- Payload of a name capture (first and last name typed by the user). -/
structure NamePayload where
  first_name : String
  last_name : String
deriving DecidableEq

/-- Payload of an email capture. -/
structure EmailPayload where
  email : String
deriving DecidableEq

/-- `NameCaptureResult` literal produced for each resolution path of
`get_firstandlastname` in src/src/App.tsx (`null` fields become `none`). -/
structure NameCaptureResult where
  first_name : Option String
  last_name : Option String
  success : Bool
  message : String
deriving DecidableEq

/-- `EmailCaptureResult` literal produced for each resolution path of
`get_email` in src/src/App.tsx. -/
structure EmailCaptureResult where
  email : Option String
  success : Bool
  message : String
deriving DecidableEq

/-- The result object `get_firstandlastname` resolves with, per resolution
path, copied from the object literals in src/src/App.tsx. -/
def nameCaptureResult : CaptureOutcome NamePayload → NameCaptureResult
  | .submitted p =>
    ⟨some p.first_name, some p.last_name, true,
      "Name " ++ p.first_name ++ " " ++ p.last_name ++
        " captured successfully for Axie Studio agent."⟩
  | .cancelled => ⟨none, none, false, "Name capture cancelled by user."⟩
  | .timedOut =>
    ⟨none, none, false,
      "Name capture timeout after 15 seconds - please try again."⟩
  | .connectionLost =>
    ⟨none, none, false, "Connection lost - name capture cancelled."⟩

/-- The result object `get_email` resolves with, per resolution path,
copied from the object literals in src/src/App.tsx. -/
def emailCaptureResult : CaptureOutcome EmailPayload → EmailCaptureResult
  | .submitted p =>
    ⟨some p.email, true,
      "Email " ++ p.email ++ " captured successfully for Axie Studio agent."⟩
  | .cancelled => ⟨none, false, "Email capture cancelled by user."⟩
  | .timedOut =>
    ⟨none, false,
      "Email capture timeout after 15 seconds - please try again."⟩
  | .connectionLost =>
    ⟨none, false, "Connection lost - email capture cancelled."⟩

/-!
## Consent persistence (claims C5 and C10)

src/src/App.tsx, `checkTermsAcceptance`: reads
`localStorage.getItem('axie_studio_terms_consent')`, parses it, computes
`isValid = consentData.accepted && consentData.timestamp`, builds
`oneYearAgo` via `setFullYear(getFullYear() - 1)`, accepts iff
`isValid && consentDate > oneYearAgo`, otherwise removes the record;
a thrown parse error lands in the catch, which only reports "not
accepted" and leaves storage untouched.

JavaScript `Date` values are embedded as a Gregorian calendar point
(year, month 1-12, day, milliseconds within the day); comparison of two
`Date`s compares their epoch-millisecond values, embedded by `toMs`.
-/

/-- Gregorian leap-year rule, as used by JavaScript `Date`. -/
def isLeap (y : Nat) : Bool :=
  (y % 4 == 0 && y % 100 != 0) || y % 400 == 0

/-- Length of month `m` (1-12) of year `y`. -/
def daysInMonth (y m : Nat) : Nat :=
  if m == 2 then (if isLeap y then 29 else 28)
  else if m == 4 || m == 6 || m == 9 || m == 11 then 30
  else 31

/-- Days in year `y` strictly before month `m`. -/
def daysBeforeMonth (y m : Nat) : Nat :=
  (List.range (m - 1)).foldl (fun acc i => acc + daysInMonth y (i + 1)) 0

/-- A calendar timestamp: year, month (1-12), day (1-based) and
milliseconds within the day. -/
structure DateTime where
  year : Nat
  month : Nat
  day : Nat
  msOfDay : Nat
deriving DecidableEq

/-- Day number of a date, counting from year 1 (proleptic Gregorian). -/
def toOrdinal (d : DateTime) : Nat :=
  (d.year - 1) * 365 + (d.year - 1) / 4 - (d.year - 1) / 100 +
    (d.year - 1) / 400 + daysBeforeMonth d.year d.month + (d.day - 1)

/-- Millisecond timeline value of a date; two JavaScript `Date`s compare
exactly as these numbers do. -/
def toMs (d : DateTime) : Nat :=
  toOrdinal d * 86400000 + d.msOfDay

/-- JavaScript `date.setFullYear(date.getFullYear() - 1)`: same calendar
month/day/time one year earlier; a Feb 29 rolls over to Mar 1 when the
target year is not a leap year (JavaScript Date overflow behaviour). -/
def setFullYearSub1 (d : DateTime) : DateTime :=
  let y := d.year - 1
  if d.month == 2 && d.day == 29 && !isLeap y then ⟨y, 3, 1, d.msOfDay⟩
  else ⟨y, d.month, d.day, d.msOfDay⟩

/-- The consent slot in localStorage: absent, present but not parseable
as JSON (`JSON.parse` throws), or a parsed record.  `hasTimestamp` is the
truthiness of `consentData.timestamp`. -/
inductive StoredConsent where
  | absent
  | malformed
  | record (accepted : Bool) (hasTimestamp : Bool) (ts : DateTime)
deriving DecidableEq

/-- Outcome of the consent check: the `hasAcceptedTerms` flag it sets and
what is left in storage afterwards. -/
structure ConsentCheckResult where
  hasAcceptedTerms : Bool
  storageAfter : StoredConsent
deriving DecidableEq

/-- `checkTermsAcceptance` from src/src/App.tsx.  A parse failure is
caught: the flag becomes false and the record is NOT removed (the
`removeItem` call sits in the expired/invalid branch, not in the catch). -/
def checkTermsAcceptance (stored : StoredConsent) (now : DateTime) :
    ConsentCheckResult :=
  match stored with
  | .absent => ⟨false, .absent⟩
  | .malformed => ⟨false, .malformed⟩
  | .record accepted hasTimestamp ts =>
    let oneYearAgo := setFullYearSub1 now
    if accepted && hasTimestamp && decide (toMs oneYearAgo < toMs ts) then
      ⟨true, .record accepted hasTimestamp ts⟩
    else
      ⟨false, .absent⟩

/-!
## Call-start gating (claims C5 and C7)

src/src/App.tsx, `handleStartSession` checks, in order: terms accepted
(else show the terms modal and return), agent id present (else return),
microphone permission (else request it and return — the function returns
without starting a session even if the request succeeds), and only then
calls `conversation.startSession`.  `hasPermission` is
`boolean | null`; the guard is `if (!hasPermission)`, so both `null` and
`false` divert to the permission request. -/

/-- Truthiness of the `hasPermission: boolean | null` React state. -/
def permTruthy : Option Bool → Bool
  | some true => true
  | _ => false

/-- What one invocation of `handleStartSession` (src/src/App.tsx) does. -/
inductive StartAction where
  | showTerms
  | missingAgent
  | requestPermission
  | attemptConnect
deriving DecidableEq

/-- `handleStartSession` from src/src/App.tsx, up to the point where the
SDK session start (`conversation.startSession`, the Connecting phase) is
reached or not. -/
def handleStartSession (hasAcceptedTerms : Bool) (agentId : Option String)
    (hasPermission : Option Bool) : StartAction :=
  if !hasAcceptedTerms then .showTerms
  else
    match agentId with
    | none => .missingAgent
    | some _ =>
      if !permTruthy hasPermission then .requestPermission
      else .attemptConnect

/-!
## Client tools over stored user info (claims C4, C9, C10)

src/src/hooks/useClientTools.ts: `getStoredUserInfo` reads
`localStorage.getItem('axie_studio_user_info')`; a record that fails to
parse is removed and `null` is returned.  The three tools
`get_firstandlastname`, `get_email`, `get_info` each take an optional
agent-supplied params object which they only log, look the data up via
`getStoredUserInfo`, and post to the webhook only on the success path. -/

/-- The locally stored user info (empty string = field missing/falsy). -/
structure UserInfo where
  firstName : String
  lastName : String
  email : String
deriving DecidableEq

/-- The user-info slot in localStorage. -/
inductive UserStore where
  | absent
  | malformed
  | ok (u : UserInfo)
deriving DecidableEq

/-- `getStoredUserInfo` from src/src/hooks/useClientTools.ts: returns the
parsed record, removing it from storage when parsing throws. -/
def getStoredUserInfo : UserStore → Option UserInfo × UserStore
  | .absent => (none, .absent)
  | .malformed => (none, .absent)
  | .ok u => (some u, .ok u)

/-- Agent-supplied hint payload of `get_firstandlastname` (ignored by the
tool; it is only logged). -/
structure NameParams where
  first_name : Option String
  last_name : Option String
deriving DecidableEq

/-- Agent-supplied hint payload of `get_email`. -/
structure EmailParams where
  email : Option String
deriving DecidableEq

/-- Agent-supplied hint payload of `get_info`. -/
structure InfoParams where
  email : Option String
  first_name : Option String
  last_name : Option String
deriving DecidableEq

/-- Response of `get_firstandlastname` (useClientTools.ts). -/
structure NameToolResponse where
  first_name : String
  last_name : String
  success : Bool
  message : String
deriving DecidableEq

/-- Response of `get_email` (useClientTools.ts). -/
structure EmailToolResponse where
  email : String
  success : Bool
  message : String
deriving DecidableEq

/-- Response of `get_info` (useClientTools.ts), field order as in the
returned object literals. -/
structure InfoToolResponse where
  email : String
  first_name : String
  last_name : String
  success : Bool
  message : String
deriving DecidableEq

/-- A tool invocation's observable effects: the response returned to the
agent, whether the webhook was posted, and the storage left behind. -/
structure ToolOutcome (ρ : Type) where
  response : ρ
  webhookSent : Bool
  storeAfter : UserStore
deriving DecidableEq

/-- `get_firstandlastname` from src/src/hooks/useClientTools.ts.  The
guard is `!currentUserInfo || !currentUserInfo.firstName ||
!currentUserInfo.lastName` (empty strings are falsy). -/
def get_firstandlastname (params : Option NameParams) (store : UserStore) :
    ToolOutcome NameToolResponse :=
  match getStoredUserInfo store with
  | (none, store2) =>
    ⟨⟨"", "", false, "No user name stored locally"⟩, false, store2⟩
  | (some u, store2) =>
    if u.firstName == "" || u.lastName == "" then
      ⟨⟨"", "", false, "No user name stored locally"⟩, false, store2⟩
    else
      ⟨⟨u.firstName, u.lastName, true,
          "User name retrieved from local storage"⟩, true, store2⟩

/-- `get_email` from src/src/hooks/useClientTools.ts. -/
def get_email (params : Option EmailParams) (store : UserStore) :
    ToolOutcome EmailToolResponse :=
  match getStoredUserInfo store with
  | (none, store2) =>
    ⟨⟨"", false, "No user email stored locally"⟩, false, store2⟩
  | (some u, store2) =>
    if u.email == "" then
      ⟨⟨"", false, "No user email stored locally"⟩, false, store2⟩
    else
      ⟨⟨u.email, true, "User email retrieved from local storage"⟩,
        true, store2⟩

/-- `get_info` from src/src/hooks/useClientTools.ts.  In the incomplete
branch the response carries `currentUserInfo?.email || ''` etc., i.e. the
fields that ARE stored, empty strings for the missing ones. -/
def get_info (params : Option InfoParams) (store : UserStore) :
    ToolOutcome InfoToolResponse :=
  match getStoredUserInfo store with
  | (none, store2) =>
    ⟨⟨"", "", "", false, "Incomplete user info stored locally"⟩,
      false, store2⟩
  | (some u, store2) =>
    if u.firstName == "" || u.lastName == "" || u.email == "" then
      ⟨⟨u.email, u.firstName, u.lastName, false,
          "Incomplete user info stored locally"⟩, false, store2⟩
    else
      ⟨⟨u.email, u.firstName, u.lastName, true,
          "Complete user info retrieved from local storage"⟩, true, store2⟩

/-!
## Pre-call info form and webhook delivery (claims C3, C6, C7)

src/src/hooks/useWebhook.ts: `sendToWebhook` posts JSON and returns a
boolean — `true` on a 2xx response, `false` on a non-2xx response, on a
network error (its own catch), or on a missing URL; it never throws.

src/src/hooks/useFormSubmission.ts: `submitForm` first returns if a
submission is in flight, then calls `validateData(data)` OUTSIDE its
try block (a throw escapes `submitForm`), stores a validation error if
one is returned, otherwise awaits `sendToWebhook` and either invokes
`onSuccess(data)` or stores the translation key `error.submission.failed`.

src/src/components/UserInfoForm.tsx: `handleSubmit` passes the payload
with snake_case keys (`first_name`, `last_name`, `email`, `full_name`,
`prompt`) to `submitForm`, while `validateUserInfo` destructures the
camelCase keys `firstName` / `lastName` / `email` from the same object.
JavaScript objects are embedded as string key-value lists, so this key
mismatch is visible to the model: a missing key reads as `none`
(undefined), and calling `.trim()` on it throws a TypeError, embedded as
`Except.error ()`. -/

/-- Possible fates of one webhook POST. -/
inductive WebhookOutcome where
  | ok
  | non2xx
  | netError
deriving DecidableEq

/-- `sendToWebhook` from src/src/hooks/useWebhook.ts: the boolean it
returns (network errors are caught internally and yield `false`). -/
def sendToWebhook : WebhookOutcome → Bool
  | .ok => true
  | .non2xx => false
  | .netError => false

/-- A JavaScript object with string-valued properties. -/
def JsObj : Type := List (String × String)

/-- Property lookup on a JavaScript object: `none` is `undefined`. -/
def jsGet : JsObj → String → Option String
  | [], _ => none
  | (k, v) :: rest, key => if k == key then some v else jsGet rest key

/-- JavaScript whitespace (the characters relevant to this code base). -/
def jsWhitespace (c : Char) : Bool :=
  c == ' ' || c == '\t' || c == '\n' || c == '\r' || c == '\x0b' || c == '\x0c'

/-- JavaScript `String.prototype.trim`: strip leading and trailing
whitespace. -/
def jsTrimStr (s : String) : String :=
  String.mk ((((s.toList.dropWhile jsWhitespace).reverse).dropWhile
    jsWhitespace).reverse)

/-- `x.trim()` on a possibly-undefined value: throws a TypeError when the
value is `undefined`. -/
def jsTrim : Option String → Except Unit String
  | none => .error ()
  | some s => .ok (jsTrimStr s)

/-- Character class `[^\s@]` of the email pattern in
src/src/components/UserInfoForm.tsx (`\s` covers the JavaScript
whitespace characters relevant here). -/
def emailAtomChar (c : Char) : Bool :=
  !(c == ' ' || c == '\t' || c == '\n' || c == '\r' ||
      c == '\x0b' || c == '\x0c') && !(c == '@')

/-- Split a character list at its first `@`, if any. -/
def splitAtFirstAt : List Char → Option (List Char × List Char)
  | [] => none
  | c :: cs =>
    if c == '@' then some ([], cs)
    else (splitAtFirstAt cs).map (fun p => (c :: p.1, p.2))

/-- Does the list contain a `.` that is neither its first nor its last
element?  (`[^\s@]+\.[^\s@]+` demands a dot with nonempty material on
both sides; `.` itself lies in `[^\s@]`.) -/
def hasInteriorDot (b : List Char) : Bool :=
  ((b.drop 1).dropLast).contains '.'

/-- The test `/^[^\s@]+@[^\s@]+\.[^\s@]+$/.test(email)` from
src/src/components/UserInfoForm.tsx.  Because `[^\s@]` excludes `@`, the
pattern's `@` must align with the string's first `@`; the string matches
iff it splits there into a nonempty `@`-and-space-free local part and a
`@`-and-space-free domain part containing an interior dot. -/
def emailRegexTest (s : List Char) : Bool :=
  match splitAtFirstAt s with
  | none => false
  | some (a, b) =>
    !a.isEmpty && a.all emailAtomChar && b.all emailAtomChar &&
      hasInteriorDot b

/-- `validateUserInfo` from src/src/components/UserInfoForm.tsx, applied
to the `data` object `submitForm` hands it.  It destructures the
camelCase keys and calls `.trim()` on each in the order the source does;
errors are the i18n keys the source passes to `t(...)`. -/
def validateUserInfo (data : JsObj) (agreedToTerms : Bool) :
    Except Unit (Option String) := do
  let firstName ← jsTrim (jsGet data "firstName")
  if firstName == "" then return some "error.firstName.required"
  let lastName ← jsTrim (jsGet data "lastName")
  if lastName == "" then return some "error.lastName.required"
  let email ← jsTrim (jsGet data "email")
  if email == "" then return some "error.email.required"
  if !emailRegexTest email.toList then return some "error.email.invalid"
  if !agreedToTerms then return some "error.terms.required"
  return none

/-- Observable result of one `submitForm` run that did not throw. -/
structure SubmitResult where
  webhookCalled : Bool
  onSuccessCalled : Bool
  error : Option String
deriving DecidableEq

/-- `submitForm` from src/src/hooks/useFormSubmission.ts, given the
result of the `validateData(data)` call (`Except.error` = the validator
threw; `.ok (some e)` = a validation error string; `.ok none` = no
validator or no error) and the fate of the webhook POST.  The validator
runs outside the try block, so a throw escapes; `sendToWebhook` itself
never throws, so the catch arm (`error.network`) is unreachable from a
webhook failure, which lands in the `success = false` branch instead. -/
def submitFormCore (isSubmitting : Bool)
    (validation : Except Unit (Option String)) (outcome : WebhookOutcome) :
    Except Unit SubmitResult :=
  if isSubmitting then .ok ⟨false, false, none⟩
  else
    match validation with
    | .error e => .error e
    | .ok (some err) => .ok ⟨false, false, some err⟩
    | .ok none =>
      if sendToWebhook outcome then .ok ⟨true, true, none⟩
      else .ok ⟨true, false, some "error.submission.failed"⟩

/-- `handleSubmit` from src/src/components/UserInfoForm.tsx: builds the
snake_case payload and runs it through `submitForm` with
`validateUserInfo` as the validator. -/
def handleSubmit (firstName lastName email : String)
    (agreedToTerms isSubmitting : Bool) (outcome : WebhookOutcome) :
    Except Unit SubmitResult :=
  submitFormCore isSubmitting
    (validateUserInfo
      [("first_name", jsTrimStr firstName), ("last_name", jsTrimStr lastName),
        ("email", jsTrimStr email),
        ("full_name", jsTrimStr firstName ++ " " ++ jsTrimStr lastName),
        ("prompt", "User submitted information before starting AI call")]
      agreedToTerms)
    outcome

/-- Observable effects of `handleUserInfoSubmit` from
src/src/pages/HomePage.tsx: its own webhook POST sits in a try/catch that
only logs (`response.ok` is never inspected, so only a network error is
even logged), after which the flow always continues to the microphone
permission check; `startSession` is reached iff the captured
`hasPermission` is `true` (the post-request re-check reads the same
captured value, so a falsy value always returns early). -/
structure HomeSubmitRun where
  webhookFailureLogged : Bool
  permissionChecked : Bool
  startSessionCalled : Bool
deriving DecidableEq

/-- `handleUserInfoSubmit` from src/src/pages/HomePage.tsx. -/
def handleUserInfoSubmit (outcome : WebhookOutcome)
    (hasPermission : Option Bool) : HomeSubmitRun :=
  { webhookFailureLogged := match outcome with
      | .netError => true
      | _ => false
    permissionChecked := true
    startSessionCalled := permTruthy hasPermission }

/-!
## Theorems

Helper lemmas about the capture bridge, then one theorem per claim
(with witnesses / counterexamples as required).
-/

/-- Once a capture promise is settled, no later event changes the
settlement (JavaScript promises settle at most once, and the handlers
never replace a settled value). -/
theorem stepCapture_settled_stable {α : Type} (s : CaptureState α)
    (e : CaptureEvent α) (o : CaptureOutcome α) (h : s.settled = some o) :
    (stepCapture s e).settled = some o := by
  cases e <;> simp only [stepCapture] <;> split <;> simp [resolveFirst, h]

/-- `stepCapture_settled_stable` extended over an event sequence. -/
theorem runCapture_settled_stable {α : Type} (s : CaptureState α)
    (es : List (CaptureEvent α)) (o : CaptureOutcome α)
    (h : s.settled = some o) : (runCapture s es).settled = some o := by
  induction es generalizing s with
  | nil => exact h
  | cons e rest ih => exact ih (stepCapture s e) (stepCapture_settled_stable s e o h)

/-- Invariant of the capture bridge: while the resolver is still stored
the promise is unsettled, and once the timer is disarmed the promise is
settled (the timer is only cleared by a resolving path or by firing). -/
theorem stepCapture_inv {α : Type} (s : CaptureState α) (e : CaptureEvent α)
    (h1 : s.resolver = true → s.settled = none)
    (h2 : s.timerActive = false → s.settled ≠ none) :
    ((stepCapture s e).resolver = true → (stepCapture s e).settled = none)
    ∧ ((stepCapture s e).timerActive = false →
        (stepCapture s e).settled ≠ none) := by
  cases e with
  | submit p =>
    by_cases hr : s.resolver = true
    · simp [stepCapture, hr, resolveFirst, h1 hr]
    · simp only [stepCapture, if_neg hr]
      exact ⟨h1, h2⟩
  | cancel =>
    by_cases hr : s.resolver = true
    · simp [stepCapture, hr, resolveFirst, h1 hr]
    · simp only [stepCapture, if_neg hr]
      exact ⟨h1, h2⟩
  | timeoutFire =>
    by_cases ht : s.timerActive = true
    · cases hs : s.settled <;>
        simp [stepCapture, ht, resolveFirst, hs]
    · simp only [stepCapture, if_neg ht]
      exact ⟨h1, h2⟩
  | disconnect capturedResolver =>
    cases capturedResolver with
    | false => exact ⟨h1, h2⟩
    | true => cases hs : s.settled <;> simp [stepCapture, resolveFirst, hs]

/-- The invariant holds along every run from a freshly opened request. -/
theorem runCapture_inv {α : Type} (es : List (CaptureEvent α)) :
    ((runCapture (initCapture α) es).resolver = true →
      (runCapture (initCapture α) es).settled = none)
    ∧ ((runCapture (initCapture α) es).timerActive = false →
      (runCapture (initCapture α) es).settled ≠ none) := by
  suffices h : ∀ (s : CaptureState α),
      (s.resolver = true → s.settled = none) →
      (s.timerActive = false → s.settled ≠ none) →
      ((runCapture s es).resolver = true → (runCapture s es).settled = none)
      ∧ ((runCapture s es).timerActive = false →
          (runCapture s es).settled ≠ none) by
    exact h (initCapture α) (fun _ => rfl) (fun hf => by simp [initCapture] at hf)
  induction es with
  | nil => exact fun s h1 h2 => ⟨h1, h2⟩
  | cons e rest ih =>
    intro s h1 h2
    exact ih (stepCapture s e) (stepCapture_inv s e h1 h2).1
      (stepCapture_inv s e h1 h2).2

/-- A run over events that are all timer firings leaves the
already-timed-out state unchanged (a cleared timer cannot fire again). -/
theorem runCapture_timedOut_fixed {α : Type} (es : List (CaptureEvent α))
    (h : ∀ e ∈ es, e = CaptureEvent.timeoutFire) :
    runCapture (⟨false, false, false, some CaptureOutcome.timedOut⟩ :
        CaptureState α) es =
      ⟨false, false, false, some CaptureOutcome.timedOut⟩ := by
  induction es with
  | nil => rfl
  | cons e rest ih =>
    have he : e = CaptureEvent.timeoutFire := h e (by simp)
    subst he
    exact ih (fun x hx => h x (by simp [hx]))

/-- Claim C1: the code is intended to retry a failed or timed-out
session start only while the connection-attempt counter is below 3
(`RETRY_ATTEMPTS`), with a 1000 ms backoff, then stop.  Evaluating the
embedded catch block shows the divergence: the guard compares the
closure-captured counter, which stays at its value from the scheduling
render (0 for a chain begun at a fresh session), so with the live counter
already at 3 a further retry is still scheduled (`handleStartFailure 0 3
= (4, some 0)`), and 5 consecutive failures schedule 5 retries and drive
the live counter to 5, past the intended bound. -/
theorem c1_stale_retry_guard :
    RETRY_ATTEMPTS = 3 ∧ RETRY_BACKOFF_MS = 1000 ∧ CONNECTION_TIMEOUT = 8000
    ∧ handleStartFailure 0 3 = (4, some 0)
    ∧ runFailures 0 0 5 = (5, 5)
    ∧ handleStartFailure 3 3 = (3, none) :=
  ⟨rfl, rfl, rfl, rfl, rfl, rfl⟩

/-- Claim C2 evaluated on the code: because `onDisconnect` is memoized
with dependency array `[emailCaptureResolver]` only, a disconnect during
the canonical pending name capture (the agent's step 1, the email
resolver untouched since mount) executes a closure that captured
`nameCaptureResolver = null`: the disconnect changes nothing — the
request stays pending, the modal stays open, the 15 s timer stays armed
— and the request's one resolution is the later timer firing with the
TIMEOUT result, not the connection-lost result the claim (and the dead
cleanup code in the `onDisconnect` body) prescribes.  With a fresh
captured resolver the same body would settle the request with the
connection-lost result, which is the intended behaviour. -/
theorem c2_disconnect_stale_resolver :
    runCapture (initCapture NamePayload) [CaptureEvent.disconnect false] =
      initCapture NamePayload
    ∧ (runCapture (initCapture NamePayload)
        [CaptureEvent.disconnect false, CaptureEvent.timeoutFire]).settled =
      some CaptureOutcome.timedOut
    ∧ nameCaptureResult CaptureOutcome.timedOut =
        ⟨none, none, false,
          "Name capture timeout after 15 seconds - please try again."⟩
    ∧ (runCapture (initCapture NamePayload)
        [CaptureEvent.disconnect true]).settled =
      some CaptureOutcome.connectionLost
    ∧ nameCaptureResult CaptureOutcome.connectionLost =
        ⟨none, none, false, "Connection lost - name capture cancelled."⟩ :=
  ⟨rfl, rfl, rfl, rfl, rfl⟩

/-- Claim C8: a pending capture request on which the user takes no action
(the only events reaching it are timer firings) ends settled with the
timeout outcome, resolver cleared and modal closed; the timer constant is
15000 ms; the timeout results carry `success = false`, null fields, and
the timeout message for both tools (each message contains the word
"timeout", exhibited by the concatenation equations). -/
theorem c8_capture_timeout (α : Type) (es : List (CaptureEvent α))
    (h : ∀ e ∈ es, e = CaptureEvent.timeoutFire) (hne : es ≠ []) :
    runCapture (initCapture α) es =
      ⟨false, false, false, some CaptureOutcome.timedOut⟩
    ∧ TOOL_CAPTURE_TIMEOUT = 15000
    ∧ nameCaptureResult CaptureOutcome.timedOut =
        ⟨none, none, false,
          "Name capture timeout after 15 seconds - please try again."⟩
    ∧ emailCaptureResult CaptureOutcome.timedOut =
        ⟨none, false,
          "Email capture timeout after 15 seconds - please try again."⟩
    ∧ "Name capture timeout after 15 seconds - please try again." =
        "Name capture " ++ "timeout" ++ " after 15 seconds - please try again."
    ∧ "Email capture timeout after 15 seconds - please try again." =
        "Email capture " ++ "timeout" ++ " after 15 seconds - please try again." := by
  refine ⟨?_, rfl, rfl, rfl, rfl, rfl⟩
  match es with
  | [] => exact absurd rfl hne
  | e :: rest =>
    have he : e = CaptureEvent.timeoutFire := h e (by simp)
    subst he
    exact runCapture_timedOut_fixed rest (fun x hx => h x (by simp [hx]))

/-- Witness for `c8_capture_timeout`: the single timer firing on a fresh
name-capture request. -/
theorem c8_capture_timeout_witness :
    runCapture (initCapture NamePayload) [CaptureEvent.timeoutFire] =
      ⟨false, false, false, some CaptureOutcome.timedOut⟩ :=
  (c8_capture_timeout NamePayload [CaptureEvent.timeoutFire]
    (by simp) (by simp)).1

/-- Counterexample to claim C3 as stated: with validation passing
(`validateData` yields no error) and a webhook delivery failure (non-2xx),
`submitForm` does NOT proceed as it would on success — it records the
submission-failed error and never invokes the `onSuccess` continuation
(which is what performs the permission check and session start), whereas
the success run invokes it. -/
theorem c3_webhook_failure_counterexample :
    submitFormCore false (Except.ok none) WebhookOutcome.non2xx =
      Except.ok ⟨true, false, some "error.submission.failed"⟩
    ∧ submitFormCore false (Except.ok none) WebhookOutcome.ok =
      Except.ok ⟨true, true, none⟩ :=
  ⟨rfl, rfl⟩

/-- Claim C3 (amended): a webhook delivery failure during the form
submission itself blocks progress — `submitForm` stores the
`error.submission.failed` message and does not invoke `onSuccess`, so the
permission check and session start are not reached; only the second
webhook POST, issued inside `handleUserInfoSubmit` after a successful
form submission, is non-fatal: whatever its fate, the flow proceeds to
the permission check and reaches `startSession` exactly as on webhook
success. -/
theorem c3_webhook_failure_amended (outcome : WebhookOutcome)
    (h : outcome ≠ WebhookOutcome.ok) (perm : Option Bool) :
    submitFormCore false (Except.ok none) outcome =
      Except.ok ⟨true, false, some "error.submission.failed"⟩
    ∧ (handleUserInfoSubmit outcome perm).permissionChecked = true
    ∧ (handleUserInfoSubmit outcome perm).startSessionCalled =
      (handleUserInfoSubmit WebhookOutcome.ok perm).startSessionCalled := by
  refine ⟨?_, rfl, rfl⟩
  cases outcome with
  | ok => exact absurd rfl h
  | non2xx => rfl
  | netError => rfl

/-- Witness for `c3_webhook_failure_amended` at a non-2xx webhook
response with permission granted. -/
theorem c3_webhook_failure_amended_witness :
    WebhookOutcome.non2xx ≠ WebhookOutcome.ok
    ∧ submitFormCore false (Except.ok none) WebhookOutcome.non2xx =
      Except.ok ⟨true, false, some "error.submission.failed"⟩ :=
  ⟨by decide,
    (c3_webhook_failure_amended WebhookOutcome.non2xx (by decide)
      (some true)).1⟩

/-- Claim C4: the agent-supplied hint payload never influences any of the
three client tools — for any two payloads (including none) and any fixed
stored user info, each tool returns the same response, webhook decision
and storage. -/
theorem c4_tools_ignore_agent_params :
    ∀ (p1 p2 : Option NameParams) (q1 q2 : Option EmailParams)
      (r1 r2 : Option InfoParams) (store : UserStore),
      get_firstandlastname p1 store = get_firstandlastname p2 store
      ∧ get_email q1 store = get_email q2 store
      ∧ get_info r1 store = get_info r2 store :=
  fun _ _ _ _ _ _ _ => ⟨rfl, rfl, rfl⟩

/-- Counterexample to claim C5 as stated: a consent record 365.5 days old
(timestamp 2023-03-01T12:00, now 2024-03-01T00:00 — the intervening span
contains Feb 29 2024) is older than 365 days, yet `checkTermsAcceptance`
accepts it and leaves it in storage, because `oneYearAgo` is computed
with `setFullYear(year - 1)`, which is 366 days across this span. -/
theorem c5_consent_expiry_counterexample :
    toMs ⟨2024, 3, 1, 0⟩ - toMs ⟨2023, 3, 1, 43200000⟩ > 365 * 86400000
    ∧ checkTermsAcceptance
        (StoredConsent.record true true ⟨2023, 3, 1, 43200000⟩)
        ⟨2024, 3, 1, 0⟩ =
      ⟨true, StoredConsent.record true true ⟨2023, 3, 1, 43200000⟩⟩ := by
  constructor
  · decide
  · rfl

/-- Claim C5 (amended): a stored consent record whose timestamp is at or
before the same calendar instant one year earlier (per
`setFullYear(year - 1)`; 365 or 366 days depending on the span), or whose
accepted flag is not true (or whose timestamp field is falsy), is treated
identically to no stored consent: the record is deleted, consent is
reported as not accepted, and with terms not accepted every call-start
invocation shows the consent dialog instead of proceeding. -/
theorem c5_consent_expiry_amended (accepted hasTimestamp : Bool)
    (ts now : DateTime)
    (h : accepted = false ∨ hasTimestamp = false ∨
      toMs ts ≤ toMs (setFullYearSub1 now)) :
    checkTermsAcceptance (StoredConsent.record accepted hasTimestamp ts) now =
      ⟨false, StoredConsent.absent⟩
    ∧ (∀ (agentId : Option String) (perm : Option Bool),
        handleStartSession false agentId perm = StartAction.showTerms) := by
  constructor
  · unfold checkTermsAcceptance
    rcases h with h | h | h
    · simp [h]
    · simp [h]
    · have hlt : ¬ (toMs (setFullYearSub1 now) < toMs ts) := Nat.not_lt.mpr h
      simp [hlt]
  · intro a p
    rfl

/-- Witness for `c5_consent_expiry_amended`: an accepted record from
2023-01-01 checked on 2024-03-01 is expired, deleted and not accepted. -/
theorem c5_consent_expiry_amended_witness :
    checkTermsAcceptance (StoredConsent.record true true ⟨2023, 1, 1, 0⟩)
        ⟨2024, 3, 1, 0⟩ =
      ⟨false, StoredConsent.absent⟩ :=
  (c5_consent_expiry_amended true true ⟨2023, 1, 1, 0⟩ ⟨2024, 3, 1, 0⟩
    (Or.inr (Or.inr (by decide)))).1

/-- Claim C6 evaluated on the code: `handleSubmit` passes the payload
under snake_case keys while `validateUserInfo` destructures camelCase
keys, so `firstName` reads as undefined and `.trim()` throws — EVERY
submission of the integrated form, including the claim's failing-field
submissions, escapes with a TypeError instead of producing a field-scoped
validation error (no webhook call and no `onSuccess` happen, but for the
wrong reason).  The validator itself, given its declared camelCase input,
does produce the field-scoped errors of the claim (empty first name, no
"@", no dot in the domain), and a validation error keeps `submitForm`
from calling the webhook or `onSuccess` — the intended behaviour the
wiring breaks. -/
theorem c6_validation_key_mismatch :
    (∀ (firstName lastName email : String) (agreed : Bool)
      (outcome : WebhookOutcome),
      handleSubmit firstName lastName email agreed false outcome =
        Except.error ())
    ∧ validateUserInfo
        [("firstName", ""), ("lastName", "Svensson"),
          ("email", "anna@example.com")] true =
      Except.ok (some "error.firstName.required")
    ∧ validateUserInfo
        [("firstName", "Anna"), ("lastName", "Svensson"),
          ("email", "annaexample.com")] true =
      Except.ok (some "error.email.invalid")
    ∧ validateUserInfo
        [("firstName", "Anna"), ("lastName", "Svensson"),
          ("email", "anna@examplecom")] true =
      Except.ok (some "error.email.invalid")
    ∧ submitFormCore false (Except.ok (some "error.firstName.required"))
        WebhookOutcome.ok =
      Except.ok ⟨false, false, some "error.firstName.required"⟩ :=
  ⟨fun _ _ _ _ _ => rfl, rfl, rfl, rfl, rfl⟩

/-- Claim C7: with microphone permission not granted (`false` or `null`),
no call-start entry point reaches the SDK session start:
`handleStartSession` (App.tsx) diverts before `conversation.startSession`,
and `handleUserInfoSubmit` (HomePage.tsx) never calls `startSession`. -/
theorem c7_permission_gate (terms : Bool) (agentId : Option String)
    (perm : Option Bool) (outcome : WebhookOutcome)
    (h : perm ≠ some true) :
    handleStartSession terms agentId perm ≠ StartAction.attemptConnect
    ∧ (handleUserInfoSubmit outcome perm).startSessionCalled = false := by
  have hp : permTruthy perm = false := by
    cases perm with
    | none => rfl
    | some b =>
      cases b with
      | false => rfl
      | true => exact absurd rfl h
  constructor
  · unfold handleStartSession
    cases terms with
    | false => simp
    | true =>
      cases agentId with
      | none => simp
      | some a => simp [hp]
  · simp [handleUserInfoSubmit, hp]

/-- Witness for `c7_permission_gate` with permission explicitly denied. -/
theorem c7_permission_gate_witness :
    (some false : Option Bool) ≠ some true
    ∧ handleStartSession true (some "agent") (some false) ≠
      StartAction.attemptConnect :=
  ⟨by decide,
    (c7_permission_gate true (some "agent") (some false) WebhookOutcome.ok
      (by decide)).1⟩

/-- Claim C9: with stored user info incomplete (at least one of the three
fields present, at least one missing), `get_info` returns
`success = false` together with exactly the stored field values (missing
ones as empty strings), and does not post to the webhook; storage is left
unchanged. -/
theorem c9_get_info_partial_fields (p : Option InfoParams) (u : UserInfo)
    (hsome : u.firstName ≠ "" ∨ u.lastName ≠ "" ∨ u.email ≠ "")
    (hmiss : u.firstName = "" ∨ u.lastName = "" ∨ u.email = "") :
    get_info p (UserStore.ok u) =
      ⟨⟨u.email, u.firstName, u.lastName, false,
          "Incomplete user info stored locally"⟩,
        false, UserStore.ok u⟩ := by
  unfold get_info getStoredUserInfo
  rcases hmiss with h | h | h <;> simp [h]

/-- Witness for `c9_get_info_partial_fields`: only a first name stored. -/
theorem c9_get_info_partial_fields_witness :
    get_info none (UserStore.ok ⟨"Anna", "", ""⟩) =
      ⟨⟨"", "Anna", "", false, "Incomplete user info stored locally"⟩,
        false, UserStore.ok ⟨"Anna", "", ""⟩⟩ :=
  c9_get_info_partial_fields none ⟨"Anna", "", ""⟩
    (Or.inl (by decide)) (Or.inr (Or.inl rfl))

/-- Claim C10: a stored consent record that fails to parse is treated as
no consent (flag false) rather than crashing the check, and a stored
user-info record that fails to parse is removed from storage and treated
as absent by all three tool lookups (failure response, no webhook). -/
theorem c10_malformed_storage :
    (∀ now : DateTime,
      (checkTermsAcceptance StoredConsent.malformed now).hasAcceptedTerms =
        false)
    ∧ getStoredUserInfo UserStore.malformed = (none, UserStore.absent)
    ∧ (∀ p, get_firstandlastname p UserStore.malformed =
        ⟨⟨"", "", false, "No user name stored locally"⟩, false,
          UserStore.absent⟩)
    ∧ (∀ q, get_email q UserStore.malformed =
        ⟨⟨"", false, "No user email stored locally"⟩, false,
          UserStore.absent⟩)
    ∧ (∀ r, get_info r UserStore.malformed =
        ⟨⟨"", "", "", false, "Incomplete user info stored locally"⟩, false,
          UserStore.absent⟩) :=
  ⟨fun _ => rfl, rfl, fun _ => rfl, fun _ => rfl, fun _ => rfl⟩
